import Mathlib

/-!
Verification development for the finadvice repository.

The monitoring and question-answering pipeline of src/main.py and the storage
layer of src/database.py are shallowly embedded below.  External collaborators
(the HTTP fetcher, the BeautifulSoup extractor, the MD5 digest, the OpenAI
model calls and the json parser) are passed in as function-valued fields of a
context record, exactly at the granularity at which src/main.py invokes them.
The relational store is embedded as an explicit state record holding the
MonitoredSources and DetectedChanges tables.
-/

/-- Python values produced by json.loads of a model response.  The program only
ever receives a JSON object (the model is called with response_format
json_object), so the parse oracle below returns an association list of fields;
field values may be arbitrary JSON. -/
inductive PyJson where
  | null
  | bool (b : Bool)
  | int (n : Int)
  | str (s : String)
  | arr (xs : List PyJson)
  | obj (fields : List (String × PyJson))

/-- A parsed JSON object / Python dict: association list of fields. -/
abbrev PyObj := List (String × PyJson)

/-- Python str.lower over a string (character-wise lowering). -/
def pyLower (s : String) : String := ⟨s.data.map Char.toLower⟩

/-- Python slice s[:n] for a string: the first n characters. -/
def pyTake (s : String) (n : Nat) : String := ⟨s.data.take n⟩

/-- Python str.strip: drop whitespace from both ends. -/
def pyStrip (s : String) : String :=
  ⟨((s.data.dropWhile Char.isWhitespace).reverse.dropWhile Char.isWhitespace).reverse⟩

/-- Whether the first list is an initial segment of the second. -/
def isPre : List Char → List Char → Bool
  | [], _ => true
  | _ :: _, [] => false
  | a :: ps, b :: ss => a == b && isPre ps ss

/-- Number of positions of s at which pat occurs (occurrences may overlap). -/
def countOccs (pat : List Char) : List Char → Nat
  | [] => if isPre pat [] then 1 else 0
  | c :: rest => (if isPre pat (c :: rest) then 1 else 0) + countOccs pat rest

/-- Python substring test: pat in s. -/
def strContains (s pat : String) : Bool := !(countOccs pat.data s.data == 0)

/-- Python truthiness of an optional string (os.getenv result): None and the
empty string are falsy. -/
def pyTruthyStr : Option String → Bool
  | none => false
  | some s => !(s == "")

/-- Python dict.get on a parsed JSON object, with a default value. -/
def pyGet (d : PyObj) (key : String) (dflt : PyJson) : PyJson :=
  match d.lookup key with
  | some v => v
  | none => dflt

/-- External collaborators of src/main.py, at the granularity at which the
code invokes them.
fetch models fetch_web_content (src/main.py lines 21-50): all of its failure
branches (timeout, HTTP error, other request failure, unsuitable content type)
return None, embedded as none; a successful fetch returns the response text.
extract models extract_relevant_info (lines 52-73): html and source name to
(summary, optional link).  md5 models hashlib.md5(...).hexdigest().
classifyCall models the chat-completion call of analyze_content_for_changes_ai
(lines 128-139), whose prompts are built deterministically from the previous
summary, the current summary and the source name; error carries str(e) of a
raised exception, ok carries the response message content.
jsonLoads models json.loads of the classification response; the call is made
with response_format json_object, so a well-formed response parses to a JSON
object; error is a JSONDecodeError.  synthCall likewise models the
chat-completion call of synthesize_answer_with_ai (lines 274-285) on the
question and the context. -/
structure Ctx where
  fetch : String → String → Option String
  extract : String → String → String × Option String
  md5 : String → String
  now : Nat
  apiKey : Option String
  classifyCall : String → String → String → Except String String
  jsonLoads : String → Except String PyObj
  synthCall : String → String → Except String String

/-- get_content_hash, src/main.py lines 15-19. -/
def get_content_hash (ctx : Ctx) (content_string : String) : String :=
  ctx.md5 (if content_string = "" then "" else content_string)

/-- The record returned by analyze_content_for_changes_ai when no API key is
configured, src/main.py lines 83-89. -/
def configErrorRecord : PyObj :=
  [("change_type", .str "Configuration Error"),
   ("significance_level", .str "High"),
   ("main_summary", .str "OpenAI API key not found. Unable to perform AI analysis."),
   ("key_details", .arr []),
   ("affected_parties", .arr [])]

/-- The record returned when the two summaries are identical strings,
src/main.py lines 96-102. -/
def noSemanticChangeRecord : PyObj :=
  [("change_type", .str "No Semantic Change Detected (Summary Identical)"),
   ("significance_level", .str "Low"),
   ("main_summary", .str "The textual summary of the content appears identical to the previous version."),
   ("key_details", .arr []),
   ("affected_parties", .arr [])]

/-- The record returned when the model response fails to parse as JSON,
src/main.py lines 147-152; it preserves the raw response truncated to 200
characters. -/
def aiResponseErrorRecord (ai_response_content : String) : PyObj :=
  [("change_type", .str "AI Response Error"),
   ("significance_level", .str "Unknown"),
   ("main_summary", .str "Failed to parse structured data from AI response."),
   ("key_details", .arr [.str ("Raw AI output: " ++ pyTake ai_response_content 200 ++ "...")]),
   ("affected_parties", .arr [])]

/-- The record returned on any other model-call failure, src/main.py lines
155-160; it carries the error description str(e). -/
def aiProcessingErrorRecord (e : String) : PyObj :=
  [("change_type", .str "AI Processing Error"),
   ("significance_level", .str "Unknown"),
   ("main_summary", .str ("An error occurred while communicating with or processing AI response: " ++ e)),
   ("key_details", .arr []),
   ("affected_parties", .arr [])]

/-- analyze_content_for_changes_ai, src/main.py lines 75-160.  Every branch
returns a value: the function never propagates an exception to its caller.
On a successful model call whose content parses, the parsed JSON object is
returned as-is (line 143). -/
def analyze_content_for_changes_ai (ctx : Ctx)
    (previous_content_summary current_content_summary source_name : String) : PyObj :=
  if !(pyTruthyStr ctx.apiKey) then configErrorRecord
  else if previous_content_summary = current_content_summary then noSemanticChangeRecord
  else
    match ctx.classifyCall previous_content_summary current_content_summary source_name with
    | .error e => aiProcessingErrorRecord e
    | .ok ai_response_content =>
      match ctx.jsonLoads ai_response_content with
      | .error _ => aiResponseErrorRecord ai_response_content
      | .ok analysis_result => analysis_result

/-- The mandatory disclaimer string, src/main.py line 288. -/
def disclaimer : String :=
  "Disclaimer: This information is for guidance only and not professional financial advice. Please consult with a qualified financial advisor for advice tailored to your specific situation."

/-- The disclaimer-appending step of synthesize_answer_with_ai, src/main.py
lines 288-292: append the disclaimer exactly when it is not already a
substring of the model output. -/
def appendDisclaimer (ai_answer : String) : String :=
  if strContains ai_answer disclaimer then ai_answer
  else ai_answer ++ "\n\n" ++ disclaimer

/-- An exception escaping a Python function to its caller. -/
inductive PyRuntimeError where
  | unboundLocal (name : String)

/-- Message returned by synthesize_answer_with_ai when no API key is set,
src/main.py line 246. -/
def configIssueMsg : String :=
  "I am unable to process your request at this time due to a configuration issue. Please contact support."

/-- Sentinel context string substituted at src/main.py lines 248-249. -/
def noContextMsg : String :=
  "No specific information was retrieved from the local knowledge base regarding this query."

/-- First magic context string tested at src/main.py line 248. -/
def noInfoFoundMsg : String :=
  "No specific information found in the local knowledge base for the given keywords."

/-- Second magic context string tested at src/main.py line 248. -/
def placeholderMsg : String :=
  "Placeholder: Internal search not yet implemented. Context from DB would go here."

/-- synthesize_answer_with_ai, src/main.py lines 237-296.  The local variable
disclaimer is assigned only inside the try block, after the model call (line
288); the except handler (line 296) interpolates it into its return string, so
when the model call itself raises, the handler raises UnboundLocalError, which
propagates to the caller.  That control path is embedded as the error case. -/
def synthesize_answer_with_ai (ctx : Ctx) (user_question context_from_db : String) :
    Except PyRuntimeError String :=
  if !(pyTruthyStr ctx.apiKey) then .ok configIssueMsg
  else
    let ctx2 := if context_from_db = "" || pyStrip context_from_db == noInfoFoundMsg
        || pyStrip context_from_db == placeholderMsg then noContextMsg else context_from_db
    match ctx.synthCall user_question ctx2 with
    | .error _ => .error (.unboundLocal "disclaimer")
    | .ok ai_answer => .ok (appendDisclaimer ai_answer)

/-- A row of the MonitoredSources table (src/database.py; columns read at
line 117 and written at lines 136-140). -/
structure SourceRow where
  id : Nat
  name : String
  url : String
  last_content_hash : Option String
  last_summary : Option String
  last_checked_at : Option Nat
  is_active : Bool

/-- A row of the DetectedChanges table (src/database.py lines 158-165). -/
structure ChangeRow where
  source_id : Nat
  previous_content_hash : Option String
  new_content_hash : String
  change_summary_from_agent : PyJson
  raw_ai_analysis_result : Option PyObj
  full_text_snippet_from_change : String
  url_of_change : String
  detected_at : Nat

/-- The relational store: the two tables the monitoring cycle touches. -/
structure DB where
  sources : List SourceRow
  changes : List ChangeRow

/-- get_active_sources, src/database.py lines 111-128: all rows with
is_active = TRUE, in listing order. -/
def get_active_sources (db : DB) : List SourceRow :=
  db.sources.filter (fun r => r.is_active)

/-- update_source_state, src/database.py lines 130-150: set
last_content_hash, last_summary and last_checked_at on every row whose id
matches. -/
def update_source_state (db : DB) (source_id : Nat) (new_hash new_summary : String)
    (now : Nat) : DB :=
  { db with sources := db.sources.map (fun r =>
      if r.id = source_id then
        { r with last_content_hash := some new_hash, last_summary := some new_summary,
                 last_checked_at := some now }
      else r) }

/-- add_detected_change, src/database.py lines 152-176: append one row to
DetectedChanges; the structured analysis is stored as JSON when truthy and as
NULL otherwise (line 163). -/
def add_detected_change (db : DB) (source_id : Nat) (previous_hash : Option String)
    (new_hash : String) (change_summary : PyJson) (ai_analysis : PyObj)
    (full_text_snippet_from_change : String) (url_of_change : String) (now : Nat) : DB :=
  { db with changes := db.changes ++
      [{ source_id := source_id,
         previous_content_hash := previous_hash,
         new_content_hash := new_hash,
         change_summary_from_agent := change_summary,
         raw_ai_analysis_result := if ai_analysis.isEmpty then none else some ai_analysis,
         full_text_snippet_from_change := full_text_snippet_from_change,
         url_of_change := url_of_change,
         detected_at := now }] }

/-- The previous-summary value handed to the classifier, src/main.py line 184:
the stored last_summary if truthy, else the first-check sentinel. -/
def previousSummaryOf (s : SourceRow) : String :=
  match s.last_summary with
  | some t => if t = "" then "N/A (first check)" else t
  | none => "N/A (first check)"

/-- url_of_change passed to the store, src/main.py lines 213 and 218: the
specific link if truthy, else the source url. -/
def urlOfChange (specific : Option String) (url : String) : String :=
  match specific with
  | some u => if u = "" then url else u
  | none => url

/-- An element of the detected_changes_summary list returned by
check_for_updates, src/main.py lines 215-220. -/
structure CycleEntry where
  source : String
  timestamp : Nat
  url : String
  analysis_summary : PyJson

/-- The body of the per-source loop of LawMonitorAgent.check_for_updates,
src/main.py lines 179-226, for one source row of the snapshot: fetch, skip on
falsy content, extract and fingerprint, compare to the stored fingerprint,
classify on difference, persist a DetectedChange when the classifier result is
truthy, and update the source state whenever the fingerprints differ. -/
def checkSource (ctx : Ctx) (db : DB) (s : SourceRow) : DB × Option CycleEntry :=
  match ctx.fetch s.url s.name with
  | none => (db, none)
  | some html_content =>
    if html_content = "" then (db, none)
    else
      let current_summary := (ctx.extract html_content s.name).1
      let current_hash := get_content_hash ctx current_summary
      if some current_hash = s.last_content_hash then (db, none)
      else
        let air := analyze_content_for_changes_ai ctx (previousSummaryOf s) current_summary s.name
        let u := urlOfChange (ctx.extract html_content s.name).2 s.url
        if air.isEmpty then
          (update_source_state db s.id current_hash current_summary ctx.now, none)
        else
          (update_source_state
            (add_detected_change db s.id s.last_content_hash current_hash
              (pyGet air "main_summary" (.str current_summary)) air current_summary u ctx.now)
            s.id current_hash current_summary ctx.now,
           some { source := s.name, timestamp := ctx.now, url := u,
                  analysis_summary := pyGet air "main_summary" (.str "N/A") })

/-- The loop of check_for_updates over a snapshot of source rows,
accumulating summary entries in iteration order. -/
def runCycle (ctx : Ctx) : DB → List SourceRow → DB × List CycleEntry
  | db, [] => (db, [])
  | db, s :: rest =>
    let r := checkSource ctx db s
    let r2 := runCycle ctx r.1 rest
    (r2.1, r.2.toList ++ r2.2)

/-- LawMonitorAgent.check_for_updates, src/main.py lines 166-235: snapshot the
active sources, then process each in order. -/
def check_for_updates (ctx : Ctx) (db : DB) : DB × List CycleEntry :=
  runCycle ctx db (get_active_sources db)

/-- The textual value of a stored payload, as the ILIKE conditions of
search_knowledge_base see it: the DetectedChanges columns searched are text
(change_summary_from_agent) or text projections of JSONB fields; only string
payloads are modelled as matchable text. -/
def asText : PyJson → Option String
  | .str s => some s
  | _ => none

/-- Postgres ILIKE of a possibly NULL text column against the pattern
percent-keyword-percent: case-insensitive substring containment; a NULL
column never matches.  Wildcard characters inside the keyword itself are not
modelled. -/
def ilikeKw (field : Option String) (kw : String) : Bool :=
  match field with
  | none => false
  | some t => strContains (pyLower t) (pyLower kw)

/-- The JSONB text projection raw_ai_analysis_result ->> key used in the
search conditions (src/database.py lines 281-283): NULL when the analysis is
NULL or the field is absent. -/
def jsonFieldText (a : Option PyObj) (key : String) : Option String :=
  match a with
  | none => none
  | some o =>
    match o.lookup key with
    | some v => asText v
    | none => none

/-- The WHERE clause of search_knowledge_base (src/database.py lines 276-294):
for each keyword, three ILIKE conditions on change_summary_from_agent, on the
main_summary projection and on the change_type projection, all joined by OR. -/
def rowMatches (keywords : List String) (r : ChangeRow) : Bool :=
  keywords.any (fun kw =>
    ilikeKw (asText r.change_summary_from_agent) kw
    || ilikeKw (jsonFieldText r.raw_ai_analysis_result "main_summary") kw
    || ilikeKw (jsonFieldText r.raw_ai_analysis_result "change_type") kw)

/-- The ORDER BY detected_at DESC comparator of search_knowledge_base. -/
def byDetectedAtDesc (a b : ChangeRow) : Bool := Nat.ble b.detected_at a.detected_at

/-- search_knowledge_base, src/database.py lines 227-310: empty keyword list
returns nothing; otherwise the matching DetectedChanges rows ordered by
detected_at descending, limited to 10. -/
def search_knowledge_base (db : DB) (keywords : List String) : List ChangeRow :=
  if keywords.isEmpty then []
  else (((db.changes.filter (rowMatches keywords)).mergeSort byDetectedAtDesc).take 10)

/-- Python str.split() with no separator: split on runs of whitespace and
drop empty pieces.  The accumulator holds the current word reversed. -/
def wordsAux (acc : List Char) : List Char → List String
  | [] => if acc.isEmpty then [] else [⟨acc.reverse⟩]
  | c :: rest =>
    if c.isWhitespace then
      if acc.isEmpty then wordsAux [] rest
      else (⟨acc.reverse⟩ : String) :: wordsAux [] rest
    else wordsAux (c :: acc) rest

/-- Python user_question.split(). -/
def pySplit (s : String) : List String := wordsAux [] s.data

/-- The keyword derivation of handle_user_questions, src/main.py line 317:
whitespace tokens of length greater than 2, lower-cased, in order. -/
def derive_keywords (user_question : String) : List String :=
  ((pySplit user_question).filter (fun kw => 2 < kw.length)).map pyLower

/-- Drop the trailing characters of a string that belong to the punctuation
set period, comma, question mark, exclamation mark. -/
def stripTrailingPunct (s : String) : String :=
  ⟨(s.data.reverse.dropWhile (fun c => c == '.' || c == ',' || c == '?' || c == '!')).reverse⟩

/-- Modelled from the spec: the keyword derivation as section 4.4 words it
(tokenize the question on whitespace, lower-case, strip trailing punctuation
from the set period comma question-mark exclamation-mark, discard tokens of
length at most 2).  This step is absent from src/main.py line 317; the
definition exists to be compared with derive_keywords. -/
def derive_keywords_spec (user_question : String) : List String :=
  ((pySplit user_question).map (fun kw => stripTrailingPunct (pyLower kw))).filter
    (fun kw => 2 < kw.length)

/-- The per-source update applied to the MonitoredSources table by one loop
iteration of check_for_updates: when the fetch is truthy and the fresh
fingerprint differs from the stored one, the row with the matching id receives
the fresh fingerprint, summary and timestamp; otherwise nothing changes.  This
function mentions no classifier input: the state update is independent of the
classification result. -/
def stepUpd (ctx : Ctx) (s : SourceRow) (r : SourceRow) : SourceRow :=
  match ctx.fetch s.url s.name with
  | none => r
  | some html_content =>
    if html_content = "" then r
    else if some (get_content_hash ctx (ctx.extract html_content s.name).1) = s.last_content_hash then r
    else if r.id = s.id then
      { r with last_content_hash := some (get_content_hash ctx (ctx.extract html_content s.name).1),
               last_summary := some (ctx.extract html_content s.name).1,
               last_checked_at := some ctx.now }
    else r

/-- The DetectedChanges row that one loop iteration appends for source s when
it records a change, expressed as a function of the snapshot row and the
context alone. -/
def changeRowOf (ctx : Ctx) (s : SourceRow) (html_content : String) : ChangeRow :=
  { source_id := s.id,
    previous_content_hash := s.last_content_hash,
    new_content_hash := get_content_hash ctx (ctx.extract html_content s.name).1,
    change_summary_from_agent :=
      pyGet (analyze_content_for_changes_ai ctx (previousSummaryOf s)
          (ctx.extract html_content s.name).1 s.name)
        "main_summary" (.str (ctx.extract html_content s.name).1),
    raw_ai_analysis_result :=
      some (analyze_content_for_changes_ai ctx (previousSummaryOf s)
        (ctx.extract html_content s.name).1 s.name),
    full_text_snippet_from_change := (ctx.extract html_content s.name).1,
    url_of_change := urlOfChange (ctx.extract html_content s.name).2 s.url,
    detected_at := ctx.now }

/-- The DetectedChanges rows contributed by one loop iteration for source s:
one row exactly when the fetch is truthy, the fresh fingerprint differs from
the stored one, and the classifier result is truthy; no row otherwise. -/
def changeContribution (ctx : Ctx) (s : SourceRow) : List ChangeRow :=
  match ctx.fetch s.url s.name with
  | none => []
  | some html_content =>
    if html_content = "" then []
    else if some (get_content_hash ctx (ctx.extract html_content s.name).1) = s.last_content_hash then []
    else if (analyze_content_for_changes_ai ctx (previousSummaryOf s)
        (ctx.extract html_content s.name).1 s.name).isEmpty then []
    else [changeRowOf ctx s html_content]

/-- A source row is settled when its stored fingerprint already equals the
fingerprint of the summary extracted from a fresh truthy fetch. -/
def rowSettled (ctx : Ctx) (r : SourceRow) : Prop :=
  ∀ html_content, ctx.fetch r.url r.name = some html_content → html_content ≠ "" →
    r.last_content_hash = some (get_content_hash ctx (ctx.extract html_content r.name).1)

/-- The five fields every structured classifier record of src/main.py lines
83-160 carries. -/
def hasAnalysisKeys (o : PyObj) : Bool :=
  (["change_type", "significance_level", "main_summary", "key_details",
    "affected_parties"] : List String).all (fun k => (o.lookup k).isSome)


/-- A context with no API key configured; its fetch always fails and its model
calls always raise. -/
def ctxNoKey : Ctx :=
  { fetch := fun _ _ => none, extract := fun _ _ => ("", none), md5 := fun s => s,
    now := 0, apiKey := none, classifyCall := fun _ _ _ => .error "boom",
    jsonLoads := fun _ => .error "Expecting value", synthCall := fun _ _ => .error "boom" }

/-- A context whose classification model call raises. -/
def ctxModelErr : Ctx := { ctxNoKey with apiKey := some "k" }

/-- A context whose classification model call returns unparseable content. -/
def ctxParseErr : Ctx :=
  { ctxNoKey with
    apiKey := some "k"
    classifyCall := fun _ _ _ => .ok "not json" }

/-- A context whose model returns the well-formed but empty JSON object, which
json.loads parses to an empty dict. -/
def ctxEmptyObj : Ctx :=
  { ctxNoKey with
    apiKey := some "k"
    classifyCall := fun _ _ _ => .ok "\x7b\x7d"
    jsonLoads := fun s => if s = "\x7b\x7d" then .ok [] else .error "Expecting value" }

/-- A context whose answer-synthesis model call raises. -/
def ctxSynthErr : Ctx :=
  { ctxNoKey with
    apiKey := some "k"
    synthCall := fun _ _ => .error "APIConnectionError: Connection error." }

/-- A deterministic context for concrete monitoring-cycle runs: the fetch
always succeeds with fixed content, the extractor and digest are simple
concrete functions, and the classifier path succeeds with a fixed record. -/
def ctxW : Ctx :=
  { fetch := fun _ _ => some "<h1>T</h1><p>P</p>", extract := fun _ _ => ("Title: T - Snippet: P...", none),
    md5 := fun s => s, now := 3, apiKey := some "k", classifyCall := fun _ _ _ => .ok "resp",
    jsonLoads := fun _ => .ok [("main_summary", PyJson.str "sum"), ("change_type", PyJson.str "Update")],
    synthCall := fun _ _ => .ok "answer" }

/-- The same context with a fetch that always fails. -/
def ctxFF : Ctx := { ctxW with fetch := fun _ _ => none }

/-- A monitored source with no prior state. -/
def srcW : SourceRow :=
  { id := 1, name := "HMRC", url := "u", last_content_hash := none, last_summary := none,
    last_checked_at := none, is_active := true }

/-- A store holding the single source srcW and no change rows. -/
def dbW : DB := { sources := [srcW], changes := [] }

/-- A monitored source with a stored fingerprint differing from the fresh
one computed under ctxC1. -/
def srcC1 : SourceRow :=
  { id := 1, name := "HMRC", url := "u", last_content_hash := some "OLD",
    last_summary := some "old summary", last_checked_at := none, is_active := true }

/-- A context identical to ctxW except that the classification model answers
with the empty JSON object. -/
def ctxC1 : Ctx :=
  { ctxW with
    classifyCall := fun _ _ _ => .ok "\x7b\x7d"
    jsonLoads := fun s => if s = "\x7b\x7d" then .ok [] else .error "Expecting value" }

/-- A store holding the single source srcC1 and no change rows. -/
def dbC1 : DB := { sources := [srcC1], changes := [] }

/-- A DetectedChanges row whose stored summary mentions a tax update. -/
def rowTax (n : Nat) : ChangeRow :=
  { source_id := n, previous_content_hash := none, new_content_hash := "h",
    change_summary_from_agent := .str "Tax rate update announced",
    raw_ai_analysis_result := none, full_text_snippet_from_change := "snippet",
    url_of_change := "u", detected_at := n }

/-- A store whose change log holds one row matching the keyword tax. -/
def dbOneRow : DB := { sources := [], changes := [rowTax 1] }

/-- A store whose change log holds six rows, all matching the keyword tax. -/
def dbSixRows : DB :=
  { sources := [], changes := [rowTax 1, rowTax 2, rowTax 3, rowTax 4, rowTax 5, rowTax 6] }

/-- Branch lemma: classifier with no API key. -/
theorem analyze_eq_of_no_key (ctx : Ctx) (prev curr source_name : String)
    (h : pyTruthyStr ctx.apiKey = false) :
    analyze_content_for_changes_ai ctx prev curr source_name = configErrorRecord := by
  simp [analyze_content_for_changes_ai, h]

/-- Branch lemma: classifier on identical summaries. -/
theorem analyze_eq_of_identical (ctx : Ctx) (prev curr source_name : String)
    (h : pyTruthyStr ctx.apiKey = true) (hpc : prev = curr) :
    analyze_content_for_changes_ai ctx prev curr source_name = noSemanticChangeRecord := by
  simp [analyze_content_for_changes_ai, h, hpc]

/-- Branch lemma: classifier when the model call raises. -/
theorem analyze_eq_of_model_error (ctx : Ctx) (prev curr source_name e : String)
    (h : pyTruthyStr ctx.apiKey = true) (hpc : prev ≠ curr)
    (he : ctx.classifyCall prev curr source_name = .error e) :
    analyze_content_for_changes_ai ctx prev curr source_name = aiProcessingErrorRecord e := by
  simp [analyze_content_for_changes_ai, h, hpc, he]

/-- Branch lemma: classifier when the model response fails to parse. -/
theorem analyze_eq_of_parse_error (ctx : Ctx) (prev curr source_name content perr : String)
    (h : pyTruthyStr ctx.apiKey = true) (hpc : prev ≠ curr)
    (hc : ctx.classifyCall prev curr source_name = .ok content)
    (hp : ctx.jsonLoads content = .error perr) :
    analyze_content_for_changes_ai ctx prev curr source_name = aiResponseErrorRecord content := by
  simp [analyze_content_for_changes_ai, h, hpc, hc, hp]

/-- Branch lemma: classifier when the model response parses. -/
theorem analyze_eq_of_ok (ctx : Ctx) (prev curr source_name content : String) (r : PyObj)
    (h : pyTruthyStr ctx.apiKey = true) (hpc : prev ≠ curr)
    (hc : ctx.classifyCall prev curr source_name = .ok content)
    (hp : ctx.jsonLoads content = .ok r) :
    analyze_content_for_changes_ai ctx prev curr source_name = r := by
  simp [analyze_content_for_changes_ai, h, hpc, hc, hp]

/-- C4: the change classifier never raises to its caller; with no model
credential it returns the Configuration Error record, on an unparseable model
response it returns the AI Response Error record preserving the raw response
truncated to 200 characters, and on any other model-call failure it returns
the AI Processing Error record carrying the error description.  The embedded
function is total, so no branch propagates an exception. -/
theorem classifier_error_branches (ctx : Ctx) (prev curr source_name : String) :
    (pyTruthyStr ctx.apiKey = false →
      analyze_content_for_changes_ai ctx prev curr source_name = configErrorRecord) ∧
    (pyTruthyStr ctx.apiKey = true → prev ≠ curr →
      ∀ e, ctx.classifyCall prev curr source_name = .error e →
        analyze_content_for_changes_ai ctx prev curr source_name = aiProcessingErrorRecord e) ∧
    (pyTruthyStr ctx.apiKey = true → prev ≠ curr →
      ∀ content perr, ctx.classifyCall prev curr source_name = .ok content →
        ctx.jsonLoads content = .error perr →
        analyze_content_for_changes_ai ctx prev curr source_name = aiResponseErrorRecord content) :=
  ⟨fun h => analyze_eq_of_no_key ctx prev curr source_name h,
   fun h hpc e he => analyze_eq_of_model_error ctx prev curr source_name e h hpc he,
   fun h hpc content perr hc hp =>
     analyze_eq_of_parse_error ctx prev curr source_name content perr h hpc hc hp⟩

/-- Witness for classifier_error_branches: the three error branches evaluated
at concrete inputs. -/
theorem classifier_error_branches_witness :
    analyze_content_for_changes_ai ctxNoKey "p" "c" "n" = configErrorRecord ∧
    analyze_content_for_changes_ai ctxModelErr "p" "c" "n" = aiProcessingErrorRecord "boom" ∧
    analyze_content_for_changes_ai ctxParseErr "p" "c" "n" = aiResponseErrorRecord "not json" :=
  ⟨(classifier_error_branches ctxNoKey "p" "c" "n").1 rfl,
   (classifier_error_branches ctxModelErr "p" "c" "n").2.1 rfl (by decide) "boom" rfl,
   (classifier_error_branches ctxParseErr "p" "c" "n").2.2 rfl (by decide) "not json"
     "Expecting value" rfl rfl⟩

/-- C10 amended: every branch of the classifier except the successful-parse
branch returns a non-empty record carrying the five expected keys; the
successful branch returns exactly the JSON object the model produced, which
may be empty or lack the keys. -/
theorem classifier_result_shape (ctx : Ctx) (prev curr source_name : String) :
    (∃ content, ctx.classifyCall prev curr source_name = .ok content ∧
        ctx.jsonLoads content = .ok (analyze_content_for_changes_ai ctx prev curr source_name)) ∨
    (analyze_content_for_changes_ai ctx prev curr source_name ≠ [] ∧
      hasAnalysisKeys (analyze_content_for_changes_ai ctx prev curr source_name) = true) := by
  cases hk : pyTruthyStr ctx.apiKey with
  | false =>
    right
    rw [analyze_eq_of_no_key ctx prev curr source_name hk]
    exact ⟨by simp [configErrorRecord], rfl⟩
  | true =>
    by_cases hpc : prev = curr
    · right
      rw [analyze_eq_of_identical ctx prev curr source_name hk hpc]
      exact ⟨by simp [noSemanticChangeRecord], rfl⟩
    · cases hc : ctx.classifyCall prev curr source_name with
      | error e =>
        right
        rw [analyze_eq_of_model_error ctx prev curr source_name e hk hpc hc]
        exact ⟨by simp [aiProcessingErrorRecord], rfl⟩
      | ok content =>
        cases hp : ctx.jsonLoads content with
        | error perr =>
          right
          rw [analyze_eq_of_parse_error ctx prev curr source_name content perr hk hpc hc hp]
          exact ⟨by simp [aiResponseErrorRecord], rfl⟩
        | ok r =>
          left
          exact ⟨content, rfl, by
            rw [analyze_eq_of_ok ctx prev curr source_name content r hk hpc hc hp]; exact hp⟩

/-- Counterexample to C10 as stated: when the model answers with the empty
JSON object, the classifier returns the empty dict, which carries none of the
five keys and is falsy, so the empty-result branch of the change detector is
reachable. -/
theorem classifier_empty_result :
    analyze_content_for_changes_ai ctxEmptyObj "prev" "curr" "src" = [] := rfl

/-- C5: evidence of the code bug.  When the synthesis model call fails, the
except handler of synthesize_answer_with_ai (src/main.py line 296) reads the
local variable disclaimer, which is assigned only inside the try block after
the model call (line 288), so the function raises UnboundLocalError to its
caller instead of returning the apology fallback with the disclaimer. -/
theorem synthesize_model_failure_raises :
    synthesize_answer_with_ai ctxSynthErr "What is the personal allowance?" "Some context"
      = .error (.unboundLocal "disclaimer") := rfl

/-- A list is an initial segment of itself followed by anything. -/
theorem isPre_append (pat x : List Char) : isPre pat (pat ++ x) = true := by
  induction pat with
  | nil => rfl
  | cons a ps ih => simp [isPre, ih]

/-- Occurrence counts only grow when material is prepended. -/
theorem le_countOccs_append (pat a b : List Char) :
    countOccs pat b ≤ countOccs pat (a ++ b) := by
  induction a with
  | nil => simp
  | cons c a ih =>
    rw [List.cons_append, countOccs]
    exact le_trans ih (Nat.le_add_left _ _)

/-- The empty pattern occurs at least once in any list. -/
theorem one_le_countOccs_nil (x : List Char) : 1 ≤ countOccs [] x := by
  induction x with
  | nil => simp [countOccs, isPre]
  | cons c r ih => rw [countOccs]; exact le_trans ih (Nat.le_add_left _ _)

/-- A pattern occurs at least once in itself followed by anything. -/
theorem one_le_countOccs_self_append (pat x : List Char) :
    1 ≤ countOccs pat (pat ++ x) := by
  cases pat with
  | nil => exact one_le_countOccs_nil x
  | cons p ps =>
    rw [List.cons_append, countOccs]
    have h1 : isPre (p :: ps) (p :: (ps ++ x)) = true := by
      have h2 := isPre_append (p :: ps) x
      rwa [List.cons_append] at h2
    rw [h1]
    simp

/-- A pattern occurs at least once in itself. -/
theorem one_le_countOccs_self (pat : List Char) : 1 ≤ countOccs pat pat := by
  have h := one_le_countOccs_self_append pat []
  rwa [List.append_nil] at h

/-- Containment follows from a positive occurrence count. -/
theorem strContains_of_one_le {s pat : String}
    (h : 1 ≤ countOccs pat.data s.data) : strContains s pat = true := by
  simp only [strContains, Bool.not_eq_true', beq_eq_false_iff_ne, ne_eq]
  omega

/-- A positive occurrence count follows from containment. -/
theorem one_le_of_strContains {s pat : String}
    (h : strContains s pat = true) : 1 ≤ countOccs pat.data s.data := by
  simp only [strContains, Bool.not_eq_true', beq_eq_false_iff_ne, ne_eq] at h
  omega

/-- A nonempty pattern occurs at least twice in its own doubling. -/
theorem two_le_countOccs_doubling {pat : List Char} (h : pat ≠ []) :
    2 ≤ countOccs pat (pat ++ pat) := by
  cases pat with
  | nil => exact absurd rfl h
  | cons p ps =>
    rw [List.cons_append, countOccs]
    have h1 : isPre (p :: ps) (p :: (ps ++ p :: ps)) = true := by
      have := isPre_append (p :: ps) (p :: ps)
      rwa [List.cons_append] at this
    rw [h1]
    have h2 : countOccs (p :: ps) (p :: ps) ≤ countOccs (p :: ps) (ps ++ p :: ps) :=
      le_countOccs_append (p :: ps) ps (p :: ps)
    have h3 := one_le_countOccs_self (p :: ps)
    simp
    omega

/-- The appended answer always contains the disclaimer at least once. -/
theorem one_le_countOccs_appendDisclaimer (s : String) :
    1 ≤ countOccs disclaimer.data (appendDisclaimer s).data := by
  unfold appendDisclaimer
  split
  · next h => exact one_le_of_strContains h
  · next h =>
    rw [String.data_append]
    exact le_trans (one_le_countOccs_self _) (le_countOccs_append _ _ _)

/-- The append is the identity on answers already containing the disclaimer. -/
theorem appendDisclaimer_of_contains {t : String}
    (h : strContains t disclaimer = true) : appendDisclaimer t = t := by
  simp [appendDisclaimer, h]

/-- The append adds the separator and the disclaimer otherwise. -/
theorem appendDisclaimer_of_not_contains {t : String}
    (h : strContains t disclaimer = false) :
    appendDisclaimer t = t ++ "\n\n" ++ disclaimer := by
  simp [appendDisclaimer, h]

set_option maxRecDepth 4096 in
/-- The disclaimer is a nonempty string. -/
theorem disclaimer_length_pos : 0 < disclaimer.length := by decide

/-- C6 amended: the disclaimer is appended exactly when it is not already a
substring of the model output (so appending to an answer that already contains
it changes nothing, and the append is idempotent), and the appended answer
always contains the disclaimer at least once. -/
theorem disclaimer_append_characterization (s : String) :
    (appendDisclaimer s = s ↔ strContains s disclaimer = true) ∧
    appendDisclaimer (appendDisclaimer s) = appendDisclaimer s ∧
    1 ≤ countOccs disclaimer.data (appendDisclaimer s).data := by
  refine ⟨⟨?_, ?_⟩, ?_, one_le_countOccs_appendDisclaimer s⟩
  · intro h
    by_contra hc
    rw [Bool.not_eq_true] at hc
    rw [appendDisclaimer_of_not_contains hc] at h
    have hlen := congrArg String.length h
    rw [String.length_append, String.length_append] at hlen
    have hd := disclaimer_length_pos
    omega
  · intro h
    exact appendDisclaimer_of_contains h
  · exact appendDisclaimer_of_contains
      (strContains_of_one_le (one_le_countOccs_appendDisclaimer s))

set_option maxRecDepth 8192 in
/-- Counterexample to C6 as stated: a model output that already contains the
disclaimer twice keeps both copies (the append is skipped), so the returned
answer does not contain the disclaimer exactly once; and the no-credential
return of the synthesizer contains the disclaimer zero times. -/
theorem disclaimer_exactly_once_fails :
    countOccs disclaimer.data (appendDisclaimer (disclaimer ++ disclaimer)).data ≠ 1 ∧
    synthesize_answer_with_ai ctxNoKey "What is the personal allowance?" "ctx"
      = .ok configIssueMsg ∧
    countOccs disclaimer.data configIssueMsg.data ≠ 1 := by
  refine ⟨?_, rfl, by decide⟩
  have hne : disclaimer.data ≠ [] := by decide
  have hcont : strContains (disclaimer ++ disclaimer) disclaimer = true := by
    apply strContains_of_one_le
    rw [String.data_append]
    exact one_le_countOccs_self_append _ _
  rw [appendDisclaimer_of_contains hcont, String.data_append]
  have h2 := two_le_countOccs_doubling hne
  omega

set_option maxRecDepth 8192 in
/-- Counterexample to C8 as stated: the code keeps trailing punctuation, so
for the question containing the token with a trailing question mark the
derived keywords differ from the spec-modelled derivation that strips it. -/
theorem keywords_not_stripped :
    derive_keywords "What is tax?" = ["what", "tax?"] ∧
    derive_keywords_spec "What is tax?" = ["what", "tax"] ∧
    derive_keywords "What is tax?" ≠ derive_keywords_spec "What is tax?" :=
  ⟨rfl, rfl, by decide⟩

/-- C8 amended: a string is a derived keyword exactly when it is the
lower-casing of a whitespace token of the question of length greater than 2;
no punctuation is stripped. -/
theorem derive_keywords_characterization (q k : String) :
    k ∈ derive_keywords q ↔ ∃ tok, tok ∈ pySplit q ∧ 2 < tok.length ∧ k = pyLower tok := by
  simp only [derive_keywords, List.mem_map, List.mem_filter]
  constructor
  · rintro ⟨a, ⟨h1, h2⟩, h3⟩
    exact ⟨a, h1, by simpa using h2, h3.symm⟩
  · rintro ⟨a, h1, h2, h3⟩
    exact ⟨a, ⟨h1, by simpa using h2⟩, h3.symm⟩

set_option maxRecDepth 8192 in
/-- Counterexample to C7 as stated: with six change rows all matching the
query keyword, the lookup returns six results, more than the claimed bound of
five (the code limit is 10). -/
theorem search_returns_more_than_five :
    5 < (search_knowledge_base dbSixRows ["tax"]).length := by
  have h1 : dbSixRows.changes.filter (rowMatches ["tax"]) = dbSixRows.changes := rfl
  show 5 < (((dbSixRows.changes.filter (rowMatches ["tax"])).mergeSort
      byDetectedAtDesc).take 10).length
  rw [List.length_take, List.length_mergeSort, h1]
  decide

/-- C7 amended: the lookup used to answer a question searches the
DetectedChanges log, not verified enquiries: the empty keyword list returns
nothing; every result is a stored change row in which some query keyword
occurs case-insensitively as a substring of the stored summary, the structured
main_summary or the structured change_type; at most 10 rows are returned; and
results are ordered by detection time, newest first.  No verification flag or
usage count exists in this code path. -/
theorem search_results_characterization (db : DB) (keywords : List String) :
    search_knowledge_base db [] = [] ∧
    (search_knowledge_base db keywords).length ≤ 10 ∧
    (∀ r ∈ search_knowledge_base db keywords, r ∈ db.changes ∧ rowMatches keywords r = true) ∧
    List.Pairwise (fun a b => b.detected_at ≤ a.detected_at)
      (search_knowledge_base db keywords) := by
  refine ⟨rfl, ?_, ?_, ?_⟩
  · unfold search_knowledge_base
    split
    · simp
    · exact List.length_take_le _ _
  · intro r hr
    unfold search_knowledge_base at hr
    split at hr
    · simp at hr
    · have h2 := List.take_subset _ _ hr
      have h3 := (List.mergeSort_perm _ _).mem_iff.mp h2
      exact List.mem_filter.mp h3
  · unfold search_knowledge_base
    split
    · exact List.Pairwise.nil
    · apply List.Pairwise.sublist (List.take_sublist _ _)
      have ht : ∀ a b c : ChangeRow, byDetectedAtDesc a b = true →
          byDetectedAtDesc b c = true → byDetectedAtDesc a c = true := by
        intro a b c hab hbc
        simp only [byDetectedAtDesc, Nat.ble_eq] at hab hbc ⊢
        omega
      have htot : ∀ a b : ChangeRow,
          (byDetectedAtDesc a b || byDetectedAtDesc b a) = true := by
        intro a b
        simp only [byDetectedAtDesc, Nat.ble_eq, Bool.or_eq_true]
        omega
      have hs := @List.sorted_mergeSort ChangeRow byDetectedAtDesc ht htot
        (db.changes.filter (rowMatches keywords))
      exact hs.imp (fun hab => by simpa [byDetectedAtDesc, Nat.ble_eq] using hab)

/-- Witness for search_results_characterization: the soundness clause applied
to a store with one matching row. -/
theorem search_results_characterization_witness :
    rowTax 1 ∈ search_knowledge_base dbOneRow ["tax"] ∧
    rowTax 1 ∈ dbOneRow.changes ∧ rowMatches ["tax"] (rowTax 1) = true := by
  have hlen : (([rowTax 1] : List ChangeRow).mergeSort byDetectedAtDesc).length ≤ 10 := by
    rw [List.length_mergeSort]; decide
  have hmem : rowTax 1 ∈ search_knowledge_base dbOneRow ["tax"] := by
    show rowTax 1 ∈ (((dbOneRow.changes.filter (rowMatches ["tax"])).mergeSort
        byDetectedAtDesc).take 10)
    have hf : dbOneRow.changes.filter (rowMatches ["tax"]) = [rowTax 1] := rfl
    rw [hf, List.take_of_length_le hlen]
    exact (List.mergeSort_perm _ _).mem_iff.mpr (List.mem_singleton.mpr rfl)
  have h2 := (search_results_characterization dbOneRow ["tax"]).2.2.1 (rowTax 1) hmem
  exact ⟨hmem, h2.1, h2.2⟩

/-- Updating source state never touches the change log. -/
theorem update_source_state_changes (db : DB) (i : Nat) (h t : String) (n : Nat) :
    (update_source_state db i h t n).changes = db.changes := rfl

/-- Appending a change row never touches the sources table. -/
theorem add_detected_change_sources (db : DB) (i : Nat) (ph : Option String) (nh : String)
    (cs : PyJson) (ai : PyObj) (sn u : String) (n : Nat) :
    (add_detected_change db i ph nh cs ai sn u n).sources = db.sources := rfl

/-- One loop iteration appends exactly the contribution of its source to the
change log: one row when the fetch is truthy, the fingerprint differs and the
classifier result is truthy, and nothing otherwise. -/
theorem checkSource_changes (ctx : Ctx) (db : DB) (s : SourceRow) :
    (checkSource ctx db s).1.changes = db.changes ++ changeContribution ctx s := by
  unfold checkSource changeContribution
  cases hf : ctx.fetch s.url s.name with
  | none => simp
  | some html =>
    by_cases h0 : html = ""
    · simp [h0]
    · simp only [h0, if_false]
      split
      · simp
      · split
        · simp [update_source_state]
        · simp_all [update_source_state, add_detected_change, changeRowOf, List.isEmpty_iff]

/-- The change log after a cycle over a snapshot is the old log followed by
the per-source contributions in snapshot order. -/
theorem runCycle_changes (ctx : Ctx) :
    ∀ (L : List SourceRow) (db : DB),
      (runCycle ctx db L).1.changes = db.changes ++ L.flatMap (changeContribution ctx) := by
  intro L
  induction L with
  | nil => intro db; simp [runCycle]
  | cons s rest ih =>
    intro db
    show (runCycle ctx (checkSource ctx db s).1 rest).1.changes = _
    rw [ih, checkSource_changes]
    simp [List.append_assoc]

/-- C1 amended: over one monitoring cycle, the DetectedChanges log grows by
exactly the concatenation, in snapshot order, of per-source contributions;
the contribution of an active source is one record exactly when its fetch is
truthy, the fingerprint of the freshly extracted summary differs from the
stored last_content_hash, and the classifier result is truthy (non-empty), and
no record otherwise. -/
theorem change_records_per_cycle (ctx : Ctx) (db : DB) :
    (check_for_updates ctx db).1.changes =
      db.changes ++ (get_active_sources db).flatMap (changeContribution ctx) :=
  runCycle_changes ctx (get_active_sources db) db

/-- Counterexample to C1 as stated: a cycle in which the single active source
fetches successfully and its fresh fingerprint differs from the stored one,
yet no DetectedChange is created, because the classifier returned the empty
dict (the model answered with the empty JSON object). -/
theorem change_record_iff_fails :
    ctxC1.fetch srcC1.url srcC1.name = some "<h1>T</h1><p>P</p>" ∧
    some (get_content_hash ctxC1 (ctxC1.extract "<h1>T</h1><p>P</p>" srcC1.name).1)
      ≠ srcC1.last_content_hash ∧
    (check_for_updates ctxC1 dbC1).1.changes = [] :=
  ⟨rfl, by decide, rfl⟩

/-- C3: when the fetch is truthy and the computed fingerprint differs from
the stored one, the source row is updated to the fresh fingerprint, summary
and timestamp; the update expression mentions no classifier input, so it holds
for every classifier outcome, including an empty one.  When the fingerprint is
unchanged, the whole store is untouched and no DetectedChange is created. -/
theorem state_update_unconditional (ctx : Ctx) (db : DB) (s : SourceRow) (html_content : String)
    (hf : ctx.fetch s.url s.name = some html_content) (hne : html_content ≠ "") :
    (some (get_content_hash ctx (ctx.extract html_content s.name).1) ≠ s.last_content_hash →
      (checkSource ctx db s).1.sources = db.sources.map (fun r =>
        if r.id = s.id then
          { r with
              last_content_hash := some (get_content_hash ctx (ctx.extract html_content s.name).1)
              last_summary := some (ctx.extract html_content s.name).1
              last_checked_at := some ctx.now }
        else r)) ∧
    (some (get_content_hash ctx (ctx.extract html_content s.name).1) = s.last_content_hash →
      checkSource ctx db s = (db, none)) := by
  constructor
  · intro hdiff
    simp only [checkSource, hf, if_neg hne, if_neg hdiff]
    split
    · simp [update_source_state]
    · simp [update_source_state, add_detected_change]
  · intro heq
    simp only [checkSource, hf, if_neg hne, if_pos heq]

/-- Witness for state_update_unconditional: the changed branch evaluated on a
concrete store whose stored fingerprint differs from the fresh one. -/
theorem state_update_unconditional_witness :
    (checkSource ctxW dbW srcW).1.sources = dbW.sources.map (fun r =>
      if r.id = srcW.id then
        { r with
            last_content_hash :=
              some (get_content_hash ctxW (ctxW.extract "<h1>T</h1><p>P</p>" srcW.name).1)
            last_summary := some (ctxW.extract "<h1>T</h1><p>P</p>" srcW.name).1
            last_checked_at := some ctxW.now }
      else r) :=
  (state_update_unconditional ctxW dbW srcW "<h1>T</h1><p>P</p>" rfl (by decide)).1 (by decide)

/-- Unfolding of one cycle step over a nonempty snapshot. -/
theorem runCycle_cons (ctx : Ctx) (db : DB) (p : SourceRow) (rest : List SourceRow) :
    runCycle ctx db (p :: rest) =
      ((runCycle ctx (checkSource ctx db p).1 rest).1,
       (checkSource ctx db p).2.toList ++ (runCycle ctx (checkSource ctx db p).1 rest).2) := rfl

/-- A fetch returning None or empty text makes the loop iteration a no-op on
any store. -/
theorem checkSource_fetch_falsy (ctx : Ctx) (s : SourceRow)
    (hf : ctx.fetch s.url s.name = none ∨ ctx.fetch s.url s.name = some "") :
    ∀ db : DB, checkSource ctx db s = (db, none) := by
  intro db
  rcases hf with h | h <;> simp [checkSource, h]

/-- C9: when the fetch of a source fails or its content type is unsuitable (both
return None from fetch_web_content) or the fetched text is empty, that source
is skipped: the store is untouched, no DetectedChange is created, and the
cycle behaves exactly as if that source were absent, continuing with the
remaining sources instead of aborting. -/
theorem fetch_failure_skips (ctx : Ctx) (db : DB) (s : SourceRow) (pre post : List SourceRow)
    (hf : ctx.fetch s.url s.name = none ∨ ctx.fetch s.url s.name = some "") :
    checkSource ctx db s = (db, none) ∧
    runCycle ctx db (pre ++ s :: post) = runCycle ctx db (pre ++ post) := by
  refine ⟨checkSource_fetch_falsy ctx s hf db, ?_⟩
  induction pre generalizing db with
  | nil =>
    simp [runCycle, checkSource_fetch_falsy ctx s hf db]
  | cons p pre ih =>
    rw [List.cons_append, List.cons_append, runCycle_cons, runCycle_cons, ih]

/-- Witness for fetch_failure_skips: a context whose fetch always fails, on a
store with one source. -/
theorem fetch_failure_skips_witness :
    checkSource ctxFF dbW srcW = (dbW, none) ∧
    runCycle ctxFF dbW ([] ++ srcW :: []) = runCycle ctxFF dbW ([] ++ []) :=
  fetch_failure_skips ctxFF dbW srcW [] [] (Or.inl rfl)

/-- Mapping a pointwise-identity function is the identity. -/
theorem map_eq_self_of_id (l : List SourceRow) (f : SourceRow → SourceRow)
    (h : ∀ r, f r = r) : l.map f = l := by
  induction l with
  | nil => rfl
  | cons a t ih => simp [h, ih]

/-- Mapping pointwise-equal functions gives equal lists. -/
theorem map_eq_map_of_eq (l : List SourceRow) (f g : SourceRow → SourceRow)
    (h : ∀ r, f r = g r) : l.map f = l.map g := by
  induction l with
  | nil => rfl
  | cons a t ih => simp [h, ih]

/-- stepUpd is the identity when the fetch returns None. -/
theorem stepUpd_of_none (ctx : Ctx) (s : SourceRow)
    (h : ctx.fetch s.url s.name = none) (r : SourceRow) : stepUpd ctx s r = r := by
  simp [stepUpd, h]

/-- stepUpd is the identity when the fetch returns empty text. -/
theorem stepUpd_of_empty (ctx : Ctx) (s : SourceRow)
    (h : ctx.fetch s.url s.name = some "") (r : SourceRow) : stepUpd ctx s r = r := by
  simp [stepUpd, h]

/-- stepUpd is the identity when the fresh fingerprint equals the stored one. -/
theorem stepUpd_of_unchanged (ctx : Ctx) (s : SourceRow) (html_content : String)
    (h : ctx.fetch s.url s.name = some html_content) (hne : html_content ≠ "")
    (heq : some (get_content_hash ctx (ctx.extract html_content s.name).1) = s.last_content_hash)
    (r : SourceRow) : stepUpd ctx s r = r := by
  simp [stepUpd, h, hne, heq]

/-- stepUpd writes the fresh state onto the matching row when the fetch is
truthy and the fingerprint differs. -/
theorem stepUpd_of_changed (ctx : Ctx) (s : SourceRow) (html_content : String)
    (h : ctx.fetch s.url s.name = some html_content) (hne : html_content ≠ "")
    (hdiff : some (get_content_hash ctx (ctx.extract html_content s.name).1) ≠ s.last_content_hash)
    (r : SourceRow) :
    stepUpd ctx s r = if r.id = s.id then
      { r with
          last_content_hash := some (get_content_hash ctx (ctx.extract html_content s.name).1)
          last_summary := some (ctx.extract html_content s.name).1
          last_checked_at := some ctx.now }
    else r := by
  simp [stepUpd, h, hne, hdiff]

/-- One loop iteration transforms the sources table by stepUpd. -/
theorem checkSource_sources (ctx : Ctx) (db : DB) (s : SourceRow) :
    (checkSource ctx db s).1.sources = db.sources.map (stepUpd ctx s) := by
  cases hf : ctx.fetch s.url s.name with
  | none =>
    rw [map_eq_self_of_id _ _ (stepUpd_of_none ctx s hf)]
    simp [checkSource, hf]
  | some html =>
    by_cases h0 : html = ""
    · subst h0
      rw [map_eq_self_of_id _ _ (stepUpd_of_empty ctx s hf)]
      simp [checkSource, hf]
    · by_cases hh : some (get_content_hash ctx (ctx.extract html s.name).1) = s.last_content_hash
      · rw [map_eq_self_of_id _ _ (stepUpd_of_unchanged ctx s html hf h0 hh)]
        simp [checkSource, hf, h0, hh]
      · rw [map_eq_map_of_eq _ _ _ (stepUpd_of_changed ctx s html hf h0 hh)]
        simp only [checkSource, hf, if_neg h0, if_neg hh]
        split
        · simp [update_source_state]
        · simp [update_source_state, add_detected_change]

/-- stepUpd never changes the identity, url, name or active flag of a row. -/
theorem stepUpd_preserves (ctx : Ctx) (s r : SourceRow) :
    (stepUpd ctx s r).id = r.id ∧ (stepUpd ctx s r).url = r.url ∧
    (stepUpd ctx s r).name = r.name ∧ (stepUpd ctx s r).is_active = r.is_active := by
  cases hf : ctx.fetch s.url s.name with
  | none => rw [stepUpd_of_none ctx s hf r]; exact ⟨rfl, rfl, rfl, rfl⟩
  | some html =>
    by_cases h0 : html = ""
    · subst h0
      rw [stepUpd_of_empty ctx s hf r]; exact ⟨rfl, rfl, rfl, rfl⟩
    · by_cases hh : some (get_content_hash ctx (ctx.extract html s.name).1) = s.last_content_hash
      · rw [stepUpd_of_unchanged ctx s html hf h0 hh r]; exact ⟨rfl, rfl, rfl, rfl⟩
      · rw [stepUpd_of_changed ctx s html hf h0 hh r]
        split_ifs <;> exact ⟨rfl, rfl, rfl, rfl⟩

/-- stepUpd is the identity on rows with a different identity. -/
theorem stepUpd_id_of_ne (ctx : Ctx) (s r : SourceRow) (h : r.id ≠ s.id) :
    stepUpd ctx s r = r := by
  cases hf : ctx.fetch s.url s.name with
  | none => exact stepUpd_of_none ctx s hf r
  | some html =>
    by_cases h0 : html = ""
    · subst h0
      exact stepUpd_of_empty ctx s hf r
    · by_cases hh : some (get_content_hash ctx (ctx.extract html s.name).1) = s.last_content_hash
      · exact stepUpd_of_unchanged ctx s html hf h0 hh r
      · rw [stepUpd_of_changed ctx s html hf h0 hh r]
        exact if_neg h

/-- A settled row makes its loop iteration a no-op on any store. -/
theorem checkSource_of_settled (ctx : Ctx) (db : DB) (s : SourceRow)
    (hs : rowSettled ctx s) : checkSource ctx db s = (db, none) := by
  cases hf : ctx.fetch s.url s.name with
  | none => simp [checkSource, hf]
  | some html =>
    by_cases h0 : html = ""
    · simp [checkSource, hf, h0]
    · have heq := hs html hf h0
      simp [checkSource, hf, h0, heq]

/-- Processing a source leaves its own row settled. -/
theorem stepUpd_settled_self (ctx : Ctx) (s : SourceRow) :
    rowSettled ctx (stepUpd ctx s s) := by
  intro html hfr hne0
  have hp := stepUpd_preserves ctx s s
  rw [hp.2.1, hp.2.2.1] at hfr
  rw [hp.2.2.1]
  by_cases hh : some (get_content_hash ctx (ctx.extract html s.name).1) = s.last_content_hash
  · rw [stepUpd_of_unchanged ctx s html hfr hne0 hh s]
    exact hh.symm
  · rw [stepUpd_of_changed ctx s html hfr hne0 hh s]
    simp

/-- Rows with pairwise-distinct identities are determined by their identity. -/
theorem nodup_ids_inj {l : List SourceRow} (h : (l.map SourceRow.id).Nodup)
    {a b : SourceRow} (ha : a ∈ l) (hb : b ∈ l) (hab : a.id = b.id) : a = b :=
  List.inj_on_of_nodup_map h ha hb hab

/-- After a cycle over a snapshot of pairwise-distinct rows of the store,
every row of the store is either settled or untouched with an identity outside
the snapshot. -/
theorem runCycle_settles (ctx : Ctx) :
    ∀ (L : List SourceRow) (db : DB),
      (db.sources.map SourceRow.id).Nodup →
      (∀ r ∈ L, r ∈ db.sources) →
      ((L.map SourceRow.id).Nodup) →
      ∀ r ∈ (runCycle ctx db L).1.sources,
        rowSettled ctx r ∨ (r ∈ db.sources ∧ r.id ∉ L.map SourceRow.id) := by
  intro L
  induction L with
  | nil =>
    intro db _ _ _ r hr
    right
    refine ⟨?_, by simp⟩
    simpa [runCycle] using hr
  | cons s rest ih =>
    intro db hnd hmem hLnd r hr
    simp only [runCycle_cons] at hr
    have hsrc : ((checkSource ctx db s).1).sources = db.sources.map (stepUpd ctx s) :=
      checkSource_sources ctx db s
    have hs_mem : s ∈ db.sources := hmem s (List.mem_cons_self s rest)
    have hLnd2 := List.nodup_cons.mp (by rw [List.map_cons] at hLnd; exact hLnd)
    have hnd1 : (((checkSource ctx db s).1).sources.map SourceRow.id).Nodup := by
      rw [hsrc, List.map_map]
      have hcomp : (SourceRow.id ∘ stepUpd ctx s) = SourceRow.id := by
        funext t; exact (stepUpd_preserves ctx s t).1
      rw [hcomp]; exact hnd
    have hmem1 : ∀ t ∈ rest, t ∈ ((checkSource ctx db s).1).sources := by
      intro t ht
      have h1 : t ∈ db.sources := hmem t (List.mem_cons_of_mem s ht)
      have hid : t.id ≠ s.id := by
        intro he
        exact hLnd2.1 (he ▸ List.mem_map_of_mem SourceRow.id ht)
      rw [hsrc]
      have h2 := List.mem_map_of_mem (stepUpd ctx s) h1
      rwa [stepUpd_id_of_ne ctx s t hid] at h2
    rcases ih (checkSource ctx db s).1 hnd1 hmem1 hLnd2.2 r hr with hset | ⟨hm2, hni⟩
    · exact Or.inl hset
    · rw [hsrc] at hm2
      rcases List.mem_map.mp hm2 with ⟨r0, hr0, heq⟩
      by_cases hid : r0.id = s.id
      · left
        have heq0 : r0 = s := nodup_ids_inj hnd hr0 hs_mem hid
        rw [← heq, heq0]
        exact stepUpd_settled_self ctx s
      · right
        have hrr : r = r0 := by rw [← heq, stepUpd_id_of_ne ctx s r0 hid]
        subst hrr
        refine ⟨hr0, ?_⟩
        rw [List.map_cons]
        intro hcontra
        rcases List.mem_cons.mp hcontra with h1 | h1
        · exact hid h1
        · exact hni h1

/-- A cycle over settled rows is a no-op with no summary entries. -/
theorem runCycle_of_all_settled (ctx : Ctx) :
    ∀ (L : List SourceRow) (db : DB), (∀ s ∈ L, rowSettled ctx s) →
      runCycle ctx db L = (db, []) := by
  intro L
  induction L with
  | nil => intro db _; rfl
  | cons s rest ih =>
    intro db h
    rw [runCycle_cons, checkSource_of_settled ctx db s (h s (List.mem_cons_self s rest))]
    simp [ih db (fun t ht => h t (List.mem_cons_of_mem s ht))]

/-- C2: with pairwise-distinct source identities (the primary key of the table),
running the monitoring cycle a second time under the same external behavior is
a complete no-op: the store after the second cycle (sources with their
last_content_hash values, and the whole change log) equals the store after the
first, and the second cycle reports no changes. -/
theorem second_cycle_noop (ctx : Ctx) (db : DB)
    (hnd : (db.sources.map SourceRow.id).Nodup) :
    check_for_updates ctx (check_for_updates ctx db).1 = ((check_for_updates ctx db).1, []) := by
  unfold check_for_updates
  apply runCycle_of_all_settled
  intro t ht
  simp only [get_active_sources] at ht
  have ht1 := List.mem_filter.mp ht
  have hmemL : ∀ r ∈ get_active_sources db, r ∈ db.sources := by
    intro r hr
    simp only [get_active_sources] at hr
    exact (List.mem_filter.mp hr).1
  have hLnd : ((get_active_sources db).map SourceRow.id).Nodup := by
    simp only [get_active_sources]
    exact List.Nodup.sublist (List.Sublist.map SourceRow.id (List.filter_sublist db.sources)) hnd
  rcases runCycle_settles ctx (get_active_sources db) db hnd hmemL hLnd t ht1.1 with hset | ⟨hm, hni⟩
  · exact hset
  · exfalso
    apply hni
    simp only [get_active_sources]
    exact List.mem_map_of_mem SourceRow.id (List.mem_filter.mpr ⟨hm, ht1.2⟩)

/-- Witness for second_cycle_noop: a concrete store with one source and a
deterministic context. -/
theorem second_cycle_noop_witness :
    (dbW.sources.map SourceRow.id).Nodup ∧
    check_for_updates ctxW (check_for_updates ctxW dbW).1 = ((check_for_updates ctxW dbW).1, []) :=
  ⟨by decide, second_cycle_noop ctxW dbW (by decide)⟩
